import Mathlib

/-!
Shallow embedding of `src/webapp/native-modules/electron-trackpad-detect/src/stub.cc`,
the stub N-API binding for non-macOS platforms, together with proofs of the
specified properties of its four operations and of its module initialisation.
-/

namespace TrackpadStub

/-- JavaScript values that the stub produces or receives across the N-API
boundary: `undefined` (from `info.Env().Undefined()`) and booleans (from
`Napi::Boolean::New`).  Callers may pass arbitrary values as arguments; the
`boolean`/`undefined` constructors suffice for the values this module itself
creates, and arguments are modelled by the same type. -/
inductive Value where
  | undefined : Value
  | boolean : Bool → Value
  deriving DecidableEq, Repr

/-- Embedding of `StartMonitoring` (stub.cc lines 10-12): ignores its
`CallbackInfo` arguments and returns the JS boolean `false`. -/
def StartMonitoring (_info : List Value) : Value :=
  Value.boolean false

/-- Embedding of `StopMonitoring` (stub.cc lines 14-16): ignores its
arguments and returns `undefined`. -/
def StopMonitoring (_info : List Value) : Value :=
  Value.undefined

/-- Embedding of `IsTrackpadScroll` (stub.cc lines 18-20): ignores its
arguments and returns the JS boolean `false`. -/
def IsTrackpadScroll (_info : List Value) : Value :=
  Value.boolean false

/-- Embedding of `IsMonitoring` (stub.cc lines 22-24): ignores its
arguments and returns the JS boolean `false`. -/
def IsMonitoring (_info : List Value) : Value :=
  Value.boolean false

/-- The four operations the module exposes. -/
inductive Op where
  | startMonitoring : Op
  | stopMonitoring : Op
  | isTrackpadScroll : Op
  | isMonitoring : Op
  deriving DecidableEq, Repr

/-- Module state.  `stub.cc` declares no globals, statics or captured
mutable data, so the state of the native module is trivial. -/
def ModuleState : Type := Unit

/-- Invoking one operation with an argument list: dispatches to the
embedded native callback and threads the (trivial) module state.  None of
the callbacks in `stub.cc` reads or writes module state, so the state is
returned unchanged. -/
def callOp (s : ModuleState) (op : Op) (args : List Value) : Value × ModuleState :=
  match op with
  | Op.startMonitoring => (StartMonitoring args, s)
  | Op.stopMonitoring => (StopMonitoring args, s)
  | Op.isTrackpadScroll => (IsTrackpadScroll args, s)
  | Op.isMonitoring => (IsMonitoring args, s)

/-- One call in a sequence: an operation together with its argument list. -/
abbrev Call := Op × List Value

/-- Executing a sequence of calls from a given module state: returns the
list of results in order together with the final state. -/
def execTrace (s : ModuleState) : List Call → List Value × ModuleState
  | [] => ([], s)
  | c :: t =>
      let r := callOp s c.1 c.2
      let rest := execTrace r.2 t
      (r.1 :: rest.1, rest.2)

/-- Properties stored on the exports object: native-backed function values
(created by `Napi::Function::New`) or any other JS value a caller may have
placed there. -/
inductive PropVal where
  | fn : (List Value → Value) → PropVal
  | plain : Value → PropVal

/-- The exports object, as a partial map from property names to values. -/
def Exports : Type := String → Option PropVal

/-- Setting a property on the exports object (`exports.Set` in stub.cc). -/
def Exports.set (e : Exports) (k : String) (v : PropVal) : Exports :=
  fun q => if q = k then some v else e q

/-- An exports object with no properties. -/
def emptyExports : Exports := fun _ => none

/-- Embedding of `Init` (stub.cc lines 26-32): sets the four named
properties to function values wrapping the four native callbacks, in
source order, and returns the (updated) exports object it was given. -/
def Init (exports : Exports) : Exports :=
  ((((exports.set "startMonitoring" (PropVal.fn StartMonitoring)).set
      "stopMonitoring" (PropVal.fn StopMonitoring)).set
      "isTrackpadScroll" (PropVal.fn IsTrackpadScroll)).set
      "isMonitoring" (PropVal.fn IsMonitoring))

end TrackpadStub

namespace TrackpadStub

/-- C1: after any sequence of calls to the four operations, `isMonitoring`
invoked with any argument list returns the JS boolean `false`. -/
theorem c1_isMonitoring_always_false (s : ModuleState) (t : List Call)
    (args : List Value) :
    (callOp (execTrace s t).2 Op.isMonitoring args).1 = Value.boolean false := by
  rfl

/-- C2: after any sequence of calls to the four operations,
`isTrackpadScroll` invoked with any argument list returns the JS boolean
`false`. -/
theorem c2_isTrackpadScroll_always_false (s : ModuleState) (t : List Call)
    (args : List Value) :
    (callOp (execTrace s t).2 Op.isTrackpadScroll args).1 = Value.boolean false := by
  rfl

/-- C3: `startMonitoring` always returns the JS boolean `false`, and a
`startMonitoring` call does not change the result of a subsequent
`isMonitoring` call: from any state, calling `isMonitoring` after a
`startMonitoring` call yields the same value as calling it without that
call. -/
theorem c3_startMonitoring_false_and_frame :
    (∀ (s : ModuleState) (a : List Value),
        (callOp s Op.startMonitoring a).1 = Value.boolean false) ∧
    (∀ (s : ModuleState) (a b : List Value),
        (callOp (callOp s Op.startMonitoring a).2 Op.isMonitoring b).1 =
          (callOp s Op.isMonitoring b).1) := by
  exact ⟨fun _ _ => rfl, fun _ _ _ => rfl⟩

/-- C4: `stopMonitoring` always returns `undefined` (no value), from any
state reached by any call sequence — in particular with no prior
`startMonitoring` call — and for any argument list; the embedded callback
is a total function, so no error is raised. -/
theorem c4_stopMonitoring_undefined (s : ModuleState) (t : List Call)
    (args : List Value) :
    (callOp (execTrace s t).2 Op.stopMonitoring args).1 = Value.undefined := by
  rfl

/-- C5: the interface exported by `Init` consists of exactly the four
operations, each bound under its exact name to the corresponding native
callback, with `startMonitoring`, `isTrackpadScroll` and `isMonitoring`
returning a JS boolean and `stopMonitoring` returning `undefined` (void)
on every argument list. -/
theorem c5_exported_interface :
    (∀ k : String, (Init emptyExports k).isSome ↔
        (k = "startMonitoring" ∨ k = "stopMonitoring" ∨
         k = "isTrackpadScroll" ∨ k = "isMonitoring")) ∧
    Init emptyExports "startMonitoring" = some (PropVal.fn StartMonitoring) ∧
    Init emptyExports "stopMonitoring" = some (PropVal.fn StopMonitoring) ∧
    Init emptyExports "isTrackpadScroll" = some (PropVal.fn IsTrackpadScroll) ∧
    Init emptyExports "isMonitoring" = some (PropVal.fn IsMonitoring) ∧
    (∀ args : List Value, ∃ b : Bool, StartMonitoring args = Value.boolean b) ∧
    (∀ args : List Value, StopMonitoring args = Value.undefined) ∧
    (∀ args : List Value, ∃ b : Bool, IsTrackpadScroll args = Value.boolean b) ∧
    (∀ args : List Value, ∃ b : Bool, IsMonitoring args = Value.boolean b) := by
  refine ⟨fun k => ?_, rfl, rfl, rfl, rfl,
    fun _ => ⟨false, rfl⟩, fun _ => rfl,
    fun _ => ⟨false, rfl⟩, fun _ => ⟨false, rfl⟩⟩
  simp only [Init, Exports.set, emptyExports]
  constructor
  · intro h
    by_cases h1 : k = "isMonitoring"
    · exact Or.inr (Or.inr (Or.inr h1))
    · simp only [h1, if_false] at h
      by_cases h2 : k = "isTrackpadScroll"
      · exact Or.inr (Or.inr (Or.inl h2))
      · simp only [h2, if_false] at h
        by_cases h3 : k = "stopMonitoring"
        · exact Or.inr (Or.inl h3)
        · simp only [h3, if_false] at h
          by_cases h4 : k = "startMonitoring"
          · exact Or.inl h4
          · simp [h4] at h
  · rintro (h | h | h | h) <;> subst h <;> simp

/-- C6: no operation can fail: each of the four operations, invoked from
any state with any argument list, terminates (the embedding is a total
function) and returns its fixed constant value. -/
theorem c6_every_op_constant (s : ModuleState) (args : List Value) :
    (callOp s Op.startMonitoring args).1 = Value.boolean false ∧
    (callOp s Op.stopMonitoring args).1 = Value.undefined ∧
    (callOp s Op.isTrackpadScroll args).1 = Value.boolean false ∧
    (callOp s Op.isMonitoring args).1 = Value.boolean false := by
  exact ⟨rfl, rfl, rfl, rfl⟩

/-- C7: in every interleaving of the four operations, each call's result is
the operation's fixed constant — `undefined` for `stopMonitoring` and the
boolean `false` for the three boolean-returning operations — independent
of all previous calls and of the arguments. -/
theorem c7_interleaving_independent (s : ModuleState) (t : List Call) :
    (execTrace s t).1 =
      t.map (fun c =>
        match c.1 with
        | Op.stopMonitoring => Value.undefined
        | _ => Value.boolean false) := by
  induction t generalizing s with
  | nil => rfl
  | cons c t ih =>
      cases c with
      | mk op args =>
          cases op <;> simp [execTrace, callOp, StartMonitoring, StopMonitoring,
            IsTrackpadScroll, IsMonitoring, ih]

/-- C8: every operation is stateless and idempotent: calling an operation
twice in succession yields the same output both times (so the pair is
observationally one call), and any two calls to the same operation — from
any states, with any argument lists — produce the same output value. -/
theorem c8_stateless_idempotent :
    (∀ (s : ModuleState) (op : Op) (args : List Value),
        (callOp (callOp s op args).2 op args).1 = (callOp s op args).1) ∧
    (∀ (s1 s2 : ModuleState) (op : Op) (a1 a2 : List Value),
        (callOp s1 op a1).1 = (callOp s2 op a2).1) := by
  constructor
  · intro s op args
    cases op <;> rfl
  · intro s1 s2 op a1 a2
    cases op <;> rfl

/-- C9: each operation's result does not depend on its arguments: for any
two argument lists passed to the same operation from the same state, the
returned value is identical. -/
theorem c9_argument_noninterference (s : ModuleState) (op : Op)
    (a1 a2 : List Value) :
    (callOp s op a1).1 = (callOp s op a2).1 := by
  cases op <;> rfl

/-- C10: `Init` produces the exports object it was given with exactly the
four named properties set to function values wrapping the native
callbacks, and every other property unchanged: the result at any key is
fully characterised by this case split. -/
theorem c10_init_frame (e : Exports) (k : String) :
    Init e k =
      if k = "isMonitoring" then some (PropVal.fn IsMonitoring)
      else if k = "isTrackpadScroll" then some (PropVal.fn IsTrackpadScroll)
      else if k = "stopMonitoring" then some (PropVal.fn StopMonitoring)
      else if k = "startMonitoring" then some (PropVal.fn StartMonitoring)
      else e k := by
  rfl

end TrackpadStub
